import Mathlib

/-!
Verification of the htcondor-python-bindings-tutorials repository.

The repository consists of a Docker launcher shell script (docker/local.sh)
and two Jupyter tutorial notebooks
(tutorials/introductory/Submitting-and-Managing-Jobs.ipynb and
tutorials/advanced/Interacting-With-Daemons.ipynb).  The notebooks contain
prose (markdown cells) and short code cells calling the external htcondor
client library, together with recorded execution outputs.

This file embeds the shell script as its list of lines, the code cells of
both notebooks (source lines and recorded outputs, transcribed verbatim from
the notebook JSON; literal brace, apostrophe characters are written with
\x escapes), and small semantic models - marked `Modelled from the spec:` -
for the behaviours of the external htcondor library that the notebooks
document but whose implementation is not part of this repository.
-/

/-- Boolean test that the pattern (first list) is a leading segment of the
second list of characters. -/
def charsLeading : List Char → List Char → Bool
  | [], _ => true
  | _ :: _, [] => false
  | p :: ps, c :: cs => p == c && charsLeading ps cs

/-- Boolean test that the pattern occurs as a contiguous segment of the
second list of characters. -/
def charsContain (pat : List Char) : List Char → Bool
  | [] => pat.isEmpty
  | c :: cs => charsLeading pat (c :: cs) || charsContain pat cs

/-- Number of positions of the second list at which the pattern occurs as a
leading segment (occurrences may overlap). -/
def charsCount (pat : List Char) : List Char → Nat
  | [] => 0
  | c :: cs => (if charsLeading pat (c :: cs) then 1 else 0) + charsCount pat cs

/-- String containment: `pat` occurs as a substring of `s`. -/
def strContains (s pat : String) : Bool :=
  charsContain pat.data s.data

/-- String test: `s` starts with `pat`. -/
def strStartsWith (s pat : String) : Bool :=
  charsLeading pat.data s.data

/-- Number of occurrences of the character `ch` in the string `s`. -/
def countChar (ch : Char) (s : String) : Nat :=
  s.data.foldl (fun n c => if c == ch then n + 1 else n) 0

/-- One recorded output of a notebook code cell: its `output_type` field and,
for error outputs, the recorded exception name (`ename`) and message
(`evalue`).  Stream text payloads are not needed by any claim and are not
modelled. -/
structure Output where
  outputType : String
  ename : Option String
  evalue : Option String
deriving DecidableEq

/-- A notebook code cell: its source lines (transcribed verbatim from the
notebook JSON, one string per line, trailing newlines stripped) and its
recorded outputs. -/
structure Cell where
  source : List String
  outputs : List Output
deriving DecidableEq

/-- The lines of docker/local.sh, transcribed verbatim (the file has eight
lines and no trailing newline). -/
def localShLines : List String := [
  "#!/usr/bin/env bash",
  "",
  "set -e",
  "",
  "CONTAINER_TAG=htcondor-python-bindings-tutorials",
  "",
  "docker build -t $\x7bCONTAINER_TAG\x7d --file docker/Dockerfile .",
  "docker run -it --rm -p 8888:8888 $\x7bCONTAINER_TAG\x7d jupyter lab"
]

/-- The code cells, in order, of
tutorials/introductory/Submitting-and-Managing-Jobs.ipynb (its markdown
cells are prose and carry no code or outputs).  No code cell of this
notebook has recorded outputs. -/
def introductoryCodeCells : List Cell := [
  ⟨["import htcondor"],
    []⟩,
  ⟨["sub = htcondor.Submit(\x7b\"foo\": \"1\", \"bar\": \"2\", \"baz\": \"$(foo)\"\x7d)",
     "sub.setdefault(\"qux\", \"3\")",
     "print(\"=== START ===\\n\x7b\x7d\\n=== END ===\".format(sub))",
     "print(sub.expand(\"baz\"))"],
    []⟩,
  ⟨["sub = htcondor.Submit(\x7b\"executable\": \"/bin/sleep\", \"arguments\": \"5m\"\x7d)"],
    []⟩,
  ⟨["schedd = htcondor.Schedd()         # Create a schedd object using default settings.",
     "with schedd.transaction() as txn:  # txn will now represent the transaction.",
     "   print(sub.queue(txn))            # Queues one job in the current transaction; returns job\x27s cluster ID"],
    []⟩,
  ⟨["with schedd.transaction() as txn:",
     "    clusterId = sub.queue(txn, 5)  # Queues 5 copies of this job.",
     "    schedd.edit([\"%d.0\" % clusterId, \"%d.1\" % clusterId], \"foo\", \x27\"bar\"\x27) # Sets attribute foo to the string \"bar\".",
     "print(\"=== START JOB STATUS ===\")",
     "for job in schedd.xquery(requirements=\"ClusterId == %d\" % clusterId, projection=[\"ProcId\", \"foo\", \"JobStatus\"]):",
     "    print(\"%d: foo=%s, job_status = %d\" % (job.get(\"ProcId\"), job.get(\"foo\", \"default_string\"), job[\"JobStatus\"]))",
     "print(\"=== END ===\")",
     "",
     "schedd.act(htcondor.JobAction.Hold, \x27ClusterId==%d && ProcId >= 2\x27 % clusterId)",
     "print(\"=== START JOB STATUS ===\")",
     "for job in schedd.xquery(requirements=\"ClusterId == %d\" % clusterId, projection=[\"ProcId\", \"foo\", \"JobStatus\"]):",
     "    print(\"%d: foo=%s, job_status = %d\" % (job.get(\"ProcId\"), job.get(\"foo\", \"default_string\"), job[\"JobStatus\"]))",
     "print(\"=== END ===\")"],
    []⟩
]

/-- The code cells, in order, of
tutorials/advanced/Interacting-With-Daemons.ipynb, with their recorded
outputs. -/
def advancedCodeCells : List Cell := [
  ⟨["import htcondor"],
    []⟩,
  ⟨["print(htcondor.param[\x27SCHEDD_LOG\x27])   # Prints the schedd\x27s current log file.",
     "print(htcondor.param.get(\x27TOOL_LOG\x27)) # Print None as TOOL_LOG isn\x27t set by default.",
     "print(htcondor.param.setdefault(\x27TOOL_LOG\x27, \x27/tmp/log\x27)) # Sets TOOL_LOG to /tmp/log.",
     "print(htcondor.param[\x27TOOL_LOG\x27])     # Prints /tmp/log, as set above."],
    [⟨"stream", none, none⟩]⟩,
  ⟨["print(htcondor.param.get(\"TOOL_LOG\"))",
     "htcondor.reload_config()",
     "print(htcondor.param.get(\"TOOL_LOG\"))"],
    [⟨"stream", none, none⟩]⟩,
  ⟨["print(htcondor.param.setdefault(\"TEST_FOO\", \"bar\"))         # Sets the default value of TEST_FOO to bar",
     "print(htcondor.param.setdefault(\"SCHEDD.TEST_FOO\", \"baz\"))  # The schedd has a special setting for TEST_FOO",
     "print(htcondor.param[\x27TEST_FOO\x27])        # Default access; should be \x27bar\x27",
     "htcondor.set_subsystem(\x27SCHEDD\x27)  # Changes the running process to identify as a schedd.",
     "print(htcondor.param[\x27TEST_FOO\x27])        # Since we now identify as a schedd, should use the special setting of \x27baz\x27"],
    [⟨"stream", none, none⟩]⟩,
  ⟨["master_ad = htcondor.Collector().locate(htcondor.DaemonTypes.Master)",
     "print(master_ad[\x27MyAddress\x27])",
     "master_param = htcondor.RemoteParam(master_ad)"],
    [⟨"stream", none, none⟩]⟩,
  ⟨["print(repr(master_param[\x27UPDATE_INTERVAL\x27]))      # Returns a string",
     "print(repr(htcondor.param[\x27UPDATE_INTERVAL\x27]))    # Returns an integer"],
    [⟨"stream", none, none⟩]⟩,
  ⟨["master_param[\x27UPDATE_INTERVAL\x27] = \x27500\x27"],
    [⟨"error", some "RuntimeError", some "Failed to set remote daemon parameter."⟩]⟩,
  ⟨["htcondor.set_subsystem(\"TOOL\")",
     "htcondor.param[\x27TOOL_DEBUG\x27] = \x27D_FULLDEBUG\x27",
     "htcondor.param[\x27TOOL_LOG\x27] = \x27/tmp/log\x27",
     "htcondor.enable_log()    # Send logs to the log file (/tmp/foo)",
     "htcondor.enable_debug()  # Send logs to stderr; this is ignored by the web notebook.",
     "print(open(\"/tmp/log\").read())  # Print the log\x27s contents."],
    [⟨"stream", none, none⟩]⟩,
  ⟨["print(master_ad[\x27MyAddress\x27])",
     "htcondor.send_command(master_ad, htcondor.DaemonCommands.Reconfig)",
     "import time",
     "time.sleep(1)",
     "log_lines = open(htcondor.param[\x27MASTER_LOG\x27]).readlines()",
     "print(log_lines[-4:])"],
    [⟨"stream", none, none⟩]⟩,
  ⟨["htcondor.send_command(master_ad, htcondor.DaemonCommands.DaemonOff, \"SCHEDD\")",
     "time.sleep(1)",
     "log_lines = open(htcondor.param[\x27MASTER_LOG\x27]).readlines()",
     "print(log_lines[-1])"],
    [⟨"stream", none, none⟩]⟩,
  ⟨["htcondor.send_command(master_ad, htcondor.DaemonCommands.OffFast)",
     "time.sleep(1)",
     "log_lines = open(htcondor.param[\x27MASTER_LOG\x27]).readlines()",
     "print(log_lines[-1])"],
    [⟨"stream", none, none⟩]⟩,
  ⟨["import os",
     "os.system(\"condor_master\")"],
    [⟨"execute_result", none, none⟩]⟩
]

/-- All code cells of both notebooks, introductory notebook first. -/
def allCodeCells : List Cell :=
  introductoryCodeCells ++ advancedCodeCells

/-- All code lines of both notebooks, in order. -/
def allCodeLines : List String :=
  (allCodeCells.map Cell.source).flatten

/-- The relative paths of the source files of the repository. -/
def repoFiles : List String := [
  "docker/local.sh",
  "tutorials/introductory/Submitting-and-Managing-Jobs.ipynb",
  "tutorials/advanced/Interacting-With-Daemons.ipynb"
]

/-- The lines of docker/local.sh that invoke docker, in script order. -/
def dockerCommandLines : List String :=
  localShLines.filter (fun l => strStartsWith l "docker ")

/-- The code cells among `cs` that have at least one recorded error
output. -/
def cellsWithErrorOutput (cs : List Cell) : List Cell :=
  cs.filter (fun c => c.outputs.any (fun o => o.outputType == "error"))

/-- C1: docker/local.sh performs exactly two actions in order - a docker
build of the image tagged htcondor-python-bindings-tutorials from
docker/Dockerfile, then a docker run of that image publishing container
port 8888 to host port 8888 and launching jupyter lab; the script consumes
no command-line arguments (no positional-parameter or getopts references)
and reads no environment variables of its own (every dollar reference in
the script is to the CONTAINER_TAG variable that the script itself
assigns). -/
theorem c1_local_sh_builds_then_runs :
    dockerCommandLines =
      ["docker build -t $\x7bCONTAINER_TAG\x7d --file docker/Dockerfile .",
       "docker run -it --rm -p 8888:8888 $\x7bCONTAINER_TAG\x7d jupyter lab"]
  ∧ "CONTAINER_TAG=htcondor-python-bindings-tutorials" ∈ localShLines
  ∧ localShLines.all (fun l =>
      !strContains l "$1" && !strContains l "$2" && !strContains l "$@"
        && !strContains l "$*" && !strContains l "$#"
        && !strContains l "getopts") = true
  ∧ localShLines.all (fun l =>
      countChar '$' l == charsCount ("$\x7bCONTAINER_TAG\x7d".data) l.data) = true := by
  decide

/-- C2: the only error output recorded anywhere in the two notebooks is the
RuntimeError with message "Failed to set remote daemon parameter." raised
by the cell that assigns a value to a RemoteParam entry, while the cell
that performs the analogous assignment to the local htcondor.param object
records no error output. -/
theorem c2_only_error_is_remote_param_set :
    cellsWithErrorOutput allCodeCells =
      [⟨["master_param[\x27UPDATE_INTERVAL\x27] = \x27500\x27"],
        [⟨"error", some "RuntimeError",
          some "Failed to set remote daemon parameter."⟩]⟩]
  ∧ allCodeCells.any (fun c =>
      c.source.contains "htcondor.param[\x27TOOL_LOG\x27] = \x27/tmp/log\x27") = true
  ∧ allCodeCells.all (fun c =>
      !(c.source.contains "htcondor.param[\x27TOOL_LOG\x27] = \x27/tmp/log\x27")
        || c.outputs.all (fun o => o.outputType != "error")) = true := by
  decide

/-- C3 counterexample: not every code cell is one or two lines long; the
introductory notebook alone has code cells of 4, 3 and 13 source lines. -/
theorem c3_counterexample :
    (allCodeCells.all (fun c => decide (c.source.length ≤ 2))) = false
  ∧ introductoryCodeCells.map (fun c => c.source.length) = [1, 4, 1, 3, 13] := by
  decide

/-- C3 amended: every code cell of the two notebooks is a short straight-line
sequence of between 1 and 13 source lines of calls on existing objects, and
no code cell defines a function or class of its own. -/
theorem c3_amended_cells_are_short_call_sequences :
    allCodeCells.all (fun c =>
      decide (1 ≤ c.source.length) && decide (c.source.length ≤ 13)
        && c.source.all (fun l =>
             !strStartsWith l "def " && !strStartsWith l "class "
               && !strContains l " def " && !strContains l " class "
               && !strContains l "lambda")) = true := by
  decide

/-- C4 counterexample: it is not the case that every code cell's recorded
execution produced no error output - the advanced notebook's cell assigning
to a RemoteParam entry recorded an error output. -/
theorem c4_counterexample :
    (allCodeCells.all (fun c =>
        c.outputs.all (fun o => o.outputType != "error"))) = false
  ∧ (advancedCodeCells.map Cell.source).contains
      ["master_param[\x27UPDATE_INTERVAL\x27] = \x27500\x27"] = true := by
  decide

/-- C4 amended: every code cell of both notebooks records no error output,
with exactly one exception - the advanced notebook's cell that assigns to a
RemoteParam entry, whose recorded output is the deliberately demonstrated
RuntimeError. -/
theorem c4_amended_no_error_outputs_except_demo :
    allCodeCells.all (fun c =>
      c.outputs.all (fun o => o.outputType != "error")
        || c.source == ["master_param[\x27UPDATE_INTERVAL\x27] = \x27500\x27"]) = true
  ∧ (cellsWithErrorOutput allCodeCells).length = 1 := by
  decide

/-- C8 counterexample: docker/local.sh is not a two-line script; it has
eight lines (shebang, blank lines, set -e, a variable assignment, and the
two docker commands). -/
theorem c8_counterexample :
    localShLines.length = 8 ∧ ¬ localShLines.length = 2 := by
  decide

/-- C8 amended: the repository consists of exactly two notebooks plus one
shell script, eight lines long, exactly two of whose lines are docker
commands - a build followed by a run that launches the notebook server. -/
theorem c8_amended_two_notebooks_one_script :
    (repoFiles.filter (fun f => strContains f ".ipynb")).length = 2
  ∧ repoFiles.filter (fun f => strContains f ".sh") = ["docker/local.sh"]
  ∧ repoFiles.length = 3
  ∧ localShLines.length = 8
  ∧ dockerCommandLines.length = 2
  ∧ strContains (dockerCommandLines.headD "") "docker build" = true
  ∧ strContains (dockerCommandLines.getLastD "") "docker run" = true
  ∧ strContains (dockerCommandLines.getLastD "") "jupyter lab" = true := by
  decide

/-- C9: no code line of either notebook defines a function, class or lambda
(so no operation is implemented by original code in this repository), and
every line performing one of the operations the notebooks show - queueing a
job submission, editing job attributes, acting on job state, reading or
writing configuration parameters, sending an administrative daemon
command - does so through the htcondor module itself or through an object
(sub, schedd, master_param, master_ad) bound directly from an htcondor
constructor in the same notebook. -/
theorem c9_operations_are_htcondor_calls :
    allCodeLines.all (fun l =>
      !strStartsWith l "def " && !strStartsWith l "class "
        && !strContains l " def " && !strContains l " class "
        && !strContains l "lambda") = true
  ∧ allCodeLines.all (fun l =>
      !strContains l ".queue(" || strContains l "sub.queue(") = true
  ∧ allCodeLines.any (fun l => strStartsWith l "sub = htcondor.Submit(") = true
  ∧ allCodeLines.all (fun l =>
      !strContains l ".edit(" || strContains l "schedd.edit(") = true
  ∧ allCodeLines.all (fun l =>
      !strContains l ".act(" || strContains l "schedd.act(htcondor.JobAction.") = true
  ∧ allCodeLines.any (fun l => strStartsWith l "schedd = htcondor.Schedd()") = true
  ∧ allCodeLines.all (fun l =>
      !strContains l "param" || strContains l "htcondor.param"
        || strContains l "master_param") = true
  ∧ allCodeLines.any (fun l =>
      l == "master_param = htcondor.RemoteParam(master_ad)") = true
  ∧ allCodeLines.all (fun l =>
      !strContains l "send_command"
        || strContains l "htcondor.send_command(master_ad, htcondor.DaemonCommands.") = true := by
  decide

/-- Modelled from the spec: a job record in the schedd job queue.  The queue
itself lives in the external schedd daemon and its implementation is not
part of this repository; the notebooks identify jobs by cluster and process
id and show attributes being read and edited. -/
structure Job where
  cluster : Nat
  proc : Nat
  attrs : List (String × String)
deriving DecidableEq

/-- Modelled from the spec: the schedd job queue, a list of jobs held by the
external schedd daemon. -/
structure JobQueue where
  jobs : List Job
deriving DecidableEq

/-- Set (or overwrite) an attribute of a job. -/
def setJobAttr (j : Job) (attr val : String) : Job :=
  { j with attrs := (attr, val) :: j.attrs.filter (fun p => p.fst != attr) }

/-- Apply one edit to every job of the queue that the given ClassAd filter
expression matches (the expression is modelled shallowly as a Boolean
predicate on jobs). -/
def applyEdit (q : JobQueue) (m : Job → Bool) (attr val : String) : JobQueue :=
  ⟨q.jobs.map (fun j => if m j then setJobAttr j attr val else j)⟩

/-- Modelled from the spec: an operation buffered inside an open schedd
transaction - queueing copies of a submitted job under a cluster id, or
editing an attribute of the jobs matching a filter expression. -/
inductive QueueOp where
  | queueJobs (cluster : Nat) (count : Nat)
  | editMatching (m : Job → Bool) (attr : String) (val : String)

/-- Effect of one buffered transaction operation on the job queue. -/
def applyOp (q : JobQueue) : QueueOp → JobQueue
  | QueueOp.queueJobs cluster count =>
      ⟨q.jobs ++ (List.range count).map (fun p => ⟨cluster, p, []⟩)⟩
  | QueueOp.editMatching m a v => applyEdit q m a v

/-- Committing a transaction applies its buffered operations to the queue,
in order, as one batch. -/
def commitTransaction (q : JobQueue) (ops : List QueueOp) : JobQueue :=
  ops.foldl applyOp q

/-- Modelled from the spec: `Schedd.transaction()` used as a Python context
manager.  The implementation is in the external htcondor library; the
introductory notebook documents that if the code block inside the with
statement completes successfully the transaction is automatically
committed, and if an exception is thrown (or Python abruptly exits) the
transaction is aborted.  The body is modelled as a function from the
initially empty operation buffer to `some` final buffer (the block
completed) or `none` (an exception escaped the block). -/
def withTransaction (q : JobQueue)
    (body : List QueueOp → Option (List QueueOp)) : JobQueue :=
  match body [] with
  | some ops => commitTransaction q ops
  | none => q

/-- C5: for a schedd transaction used as a context manager, if the block
completes successfully the transaction is committed (the buffered
operations are applied to the queue), and if an exception escapes the block
the transaction is aborted, leaving the job queue unchanged by the aborted
transaction's operations. -/
theorem c5_transaction_commit_or_abort (q : JobQueue)
    (body : List QueueOp → Option (List QueueOp)) :
    (∀ ops, body [] = some ops → withTransaction q body = commitTransaction q ops)
  ∧ (body [] = none → withTransaction q body = q) := by
  constructor
  · intro ops h
    simp [withTransaction, h]
  · intro h
    simp [withTransaction, h]

/-- A one-job queue used to instantiate the transaction theorems. -/
def sampleQueue : JobQueue := ⟨[⟨1, 0, []⟩]⟩

/-- Witness for C5 at a concrete queue: a completing body commits its queued
operation, and a body that raises leaves the queue unchanged. -/
theorem c5_transaction_commit_or_abort_witness :
    withTransaction sampleQueue (fun ops => some (ops ++ [QueueOp.queueJobs 2 5]))
      = commitTransaction sampleQueue [QueueOp.queueJobs 2 5]
  ∧ withTransaction sampleQueue (fun _ => none) = sampleQueue :=
  ⟨(c5_transaction_commit_or_abort sampleQueue
      (fun ops => some (ops ++ [QueueOp.queueJobs 2 5]))).1 _ rfl,
   (c5_transaction_commit_or_abort sampleQueue (fun _ => none)).2 rfl⟩

/-- Error message of the modelled `Schedd.edit` when no job matches. -/
def editNoMatchError : String :=
  "No jobs matched the specified ClassAd expression."

/-- Modelled from the spec: `Schedd.edit()` called with a ClassAd expression
as the job specification.  The implementation is in the external htcondor
library; the introductory notebook documents that the set of jobs to change
can be given as a ClassAd expression and that if no jobs match the filter
an exception is thrown.  The exceptional outcome is modelled as
`Except.error`. -/
def scheddEdit (q : JobQueue) (m : Job → Bool) (attr val : String) :
    Except String JobQueue :=
  if q.jobs.any m then Except.ok (applyEdit q m attr val)
  else Except.error editNoMatchError

/-- C6: `Schedd.edit` with a ClassAd-expression job specification throws an
exception when no job in the queue matches the filter; and two edit calls
made inside one transaction become visible atomically - committing the
transaction yields exactly the queue with both edits applied, with no
intermediate state ever published. -/
theorem c6_edit_no_match_throws_and_edits_atomic (q : JobQueue)
    (m m1 m2 : Job → Bool) (a v a1 v1 a2 v2 : String) :
    ((∀ j ∈ q.jobs, m j = false) → scheddEdit q m a v = Except.error editNoMatchError)
  ∧ withTransaction q (fun ops =>
        some (ops ++ [QueueOp.editMatching m1 a1 v1, QueueOp.editMatching m2 a2 v2]))
      = applyEdit (applyEdit q m1 a1 v1) m2 a2 v2 := by
  constructor
  · intro h
    have hany : q.jobs.any m = false := by
      rw [List.any_eq_false]
      intro j hj
      simp [h j hj]
    simp [scheddEdit, hany]
  · rfl

/-- Witness for C6 at a concrete queue: a filter matching no job makes edit
throw, and two buffered edits commit together. -/
theorem c6_edit_no_match_throws_and_edits_atomic_witness :
    scheddEdit sampleQueue (fun j => decide (j.cluster = 99)) "foo" "bar"
      = Except.error editNoMatchError
  ∧ withTransaction sampleQueue (fun ops =>
        some (ops ++ [QueueOp.editMatching (fun j => decide (j.cluster = 1)) "foo" "bar",
                      QueueOp.editMatching (fun j => decide (j.proc = 0)) "baz" "qux"]))
      = applyEdit (applyEdit sampleQueue (fun j => decide (j.cluster = 1)) "foo" "bar")
          (fun j => decide (j.proc = 0)) "baz" "qux" := by
  refine ⟨(c6_edit_no_match_throws_and_edits_atomic sampleQueue
      (fun j => decide (j.cluster = 99)) (fun j => decide (j.cluster = 1))
      (fun j => decide (j.proc = 0)) "foo" "bar" "foo" "bar" "baz" "qux").1 ?_,
    (c6_edit_no_match_throws_and_edits_atomic sampleQueue
      (fun j => decide (j.cluster = 99)) (fun j => decide (j.cluster = 1))
      (fun j => decide (j.proc = 0)) "foo" "bar" "foo" "bar" "baz" "qux").2⟩
  decide

/-- Modelled from the spec: a configuration table as exposed by the
module-level `htcondor.param` object.  The implementation is in the
external htcondor library; the advanced notebook documents that `param`
emulates a Python dictionary and that assignments to it persist only in
memory. -/
structure CondorConfig where
  table : List (String × String)
deriving DecidableEq

/-- Dictionary lookup in a configuration table (`param.get`, returning
`none` - Python None - when the key is unset). -/
def configLookup (c : CondorConfig) (key : String) : Option String :=
  (c.table.find? (fun p => p.fst == key)).map Prod.snd

/-- In-memory assignment `param[key] = val`. -/
def paramSet (c : CondorConfig) (key val : String) : CondorConfig :=
  ⟨(key, val) :: c.table.filter (fun p => p.fst != key)⟩

/-- Dictionary `param.setdefault`: keep an existing value, otherwise set the
given default; returns the updated table and the resulting value of the
key. -/
def paramSetdefault (c : CondorConfig) (key val : String) :
    CondorConfig × String :=
  match configLookup c key with
  | some v0 => (c, v0)
  | none => (paramSet c key val, val)

/-- Modelled from the spec: `htcondor.reload_config()` re-reads the
configuration files from disk, replacing the in-memory table with the
on-disk one; the advanced notebook documents that in-memory changes
disappear. -/
def reload_config (onDisk : CondorConfig) (_current : CondorConfig) :
    CondorConfig := onDisk

/-- C7: a parameter set or defaulted in memory via `param` persists only in
memory - right after `setdefault` the key is readable, but if the key is
absent from the on-disk configuration files, a subsequent `reload_config`
discards the in-memory value and `param.get` of the key returns None,
regardless of the prior in-memory assignment. -/
theorem c7_reload_config_discards_memory (onDisk current : CondorConfig)
    (key val : String) (hdisk : configLookup onDisk key = none) :
    (∃ v, configLookup (paramSetdefault current key val).fst key = some v)
  ∧ configLookup
      (reload_config onDisk (paramSetdefault current key val).fst) key = none := by
  constructor
  · unfold paramSetdefault
    cases h : configLookup current key with
    | some v0 =>
        exact ⟨v0, by simpa using h⟩
    | none =>
        exact ⟨val, by simp [configLookup, paramSet]⟩
  · simpa [reload_config] using hdisk

/-- The on-disk configuration used to instantiate the reload theorem: it
sets SCHEDD_LOG but not TOOL_LOG, as in the tutorial container. -/
def sampleOnDiskConfig : CondorConfig :=
  ⟨[("SCHEDD_LOG", "/home/jovyan/.condor/state/log/SchedLog")]⟩

/-- Witness for C7 at the notebook scenario: `setdefault` of TOOL_LOG to
/tmp/log is visible in memory, and after `reload_config` the key reads as
None again. -/
theorem c7_reload_config_discards_memory_witness :
    (∃ v, configLookup
        (paramSetdefault sampleOnDiskConfig "TOOL_LOG" "/tmp/log").fst
        "TOOL_LOG" = some v)
  ∧ configLookup
      (reload_config sampleOnDiskConfig
        (paramSetdefault sampleOnDiskConfig "TOOL_LOG" "/tmp/log").fst)
      "TOOL_LOG" = none :=
  c7_reload_config_discards_memory sampleOnDiskConfig sampleOnDiskConfig
    "TOOL_LOG" "/tmp/log" (by decide)

/-- Modelled from the spec: the states of a running job while a
`JobAction.Remove` is processed by the external daemons.  The introductory
notebook documents that Remove removes a job from the schedd queue,
cleaning it up first on the remote host, and that this requires the remote
host to acknowledge it has successfully vacated the job, so Remove may not
be instantaneous. -/
inductive RemoveState where
  | running
  | removalRequested
  | vacatedAcknowledged
  | removed
deriving DecidableEq

/-- Modelled from the spec: the events of the removal exchange between the
schedd and the remote host. -/
inductive RemoveEvent where
  | requestRemove
  | acknowledgeVacated
  | completeRemove
deriving DecidableEq

/-- One step of the removal protocol: the remove request is issued, the
remote host acknowledges it has vacated the job, and only then can the
removal complete; any other event leaves the state unchanged. -/
def removeStep (s : RemoveState) (e : RemoveEvent) : RemoveState :=
  match s, e with
  | RemoveState.running, RemoveEvent.requestRemove => RemoveState.removalRequested
  | RemoveState.removalRequested, RemoveEvent.acknowledgeVacated =>
      RemoveState.vacatedAcknowledged
  | RemoveState.vacatedAcknowledged, RemoveEvent.completeRemove => RemoveState.removed
  | s, _ => s

/-- Run the removal protocol over a sequence of events. -/
def removeRun (s : RemoveState) (evs : List RemoveEvent) : RemoveState :=
  evs.foldl removeStep s

/-- Every event sequence that drives a state to `removed` either starts at
a post-acknowledgement state or contains the acknowledgement event. -/
theorem removeRun_removed_cases (evs : List RemoveEvent) :
    ∀ s, removeRun s evs = RemoveState.removed →
      s = RemoveState.removed ∨ s = RemoveState.vacatedAcknowledged
        ∨ RemoveEvent.acknowledgeVacated ∈ evs := by
  induction evs with
  | nil =>
      intro s h
      exact Or.inl h
  | cons e t ih =>
      intro s h
      rcases ih (removeStep s e) h with h1 | h2 | h3
      · cases s <;> cases e <;> simp_all [removeStep]
      · cases s <;> cases e <;> simp_all [removeStep]
      · exact Or.inr (Or.inr (List.mem_cons_of_mem e h3))

/-- C10: in the modelled removal protocol a running job reaches the removed
state only if the remote host acknowledged vacating the job at some point
of the event sequence (so the acknowledgement is performed by the external
daemons the schedd talks to); moreover Remove is not instantaneous - after
the remove request alone the job is not yet removed, while the full
request, acknowledge, complete exchange does remove it. -/
theorem c10_remove_completes_only_after_ack :
    (∀ evs : List RemoveEvent,
        removeRun RemoveState.running evs = RemoveState.removed →
          RemoveEvent.acknowledgeVacated ∈ evs)
  ∧ removeRun RemoveState.running [RemoveEvent.requestRemove] ≠ RemoveState.removed
  ∧ removeRun RemoveState.running
      [RemoveEvent.requestRemove, RemoveEvent.acknowledgeVacated,
       RemoveEvent.completeRemove] = RemoveState.removed := by
  refine ⟨?_, by decide, by decide⟩
  intro evs h
  rcases removeRun_removed_cases evs RemoveState.running h with h1 | h2 | h3
  · cases h1
  · cases h2
  · exact h3

/-- Witness for C10 at the concrete three-event exchange: completion implies
the acknowledgement event occurs in the sequence. -/
theorem c10_remove_completes_only_after_ack_witness :
    RemoveEvent.acknowledgeVacated ∈
      [RemoveEvent.requestRemove, RemoveEvent.acknowledgeVacated,
       RemoveEvent.completeRemove] :=
  c10_remove_completes_only_after_ack.1
    [RemoveEvent.requestRemove, RemoveEvent.acknowledgeVacated,
     RemoveEvent.completeRemove] (by decide)
